import Mathlib

/-!
Shallow embedding of the core booking/ticket logic of
`src/app.py` (Online Platform Ticket Booking System).

Records are embedded as structures whose fields mirror the JSON record
shapes of the source.  Timestamps are modelled as integers (`Int`): the
source stores ISO timestamps and compares them as `datetime` values, which
are totally ordered; a ticket's `expiryTime` is an `Option Int`, where
`none` models a stored string that `datetime.fromisoformat` fails to parse
(the source catches that exception).  `datetime.now()` is modelled by an
explicit `now` argument to each operation.  Identifiers are `Nat`.
-/

namespace TicketBooking

/-- Ticket lifecycle states, from the status strings used in `src/app.py`:
"Pending Payment", "Active", "Expired", "Cancelled". -/
inductive TicketStatus where
  | pendingPayment
  | active
  | expired
  | cancelled
  deriving DecidableEq, Repr

/-- Payment outcome, from the strings "SUCCESS" / "FAILED" in `process_payment`. -/
inductive PaymentStatus where
  | success
  | failed
  deriving DecidableEq, Repr

/-- A platform record: `{"platformNumber": ..., "capacity": ...}`. -/
structure Platform where
  platformNumber : Nat
  capacity : Nat
  deriving DecidableEq, Repr

/-- A ticket record, as built in `create_booking`. -/
structure Ticket where
  ticketId : Nat
  issueTime : Int
  expiryTime : Option Int
  status : TicketStatus
  platformNumber : Nat
  deriving DecidableEq, Repr

/-- A booking record, as built in `create_booking`. -/
structure Booking where
  bookingId : Nat
  userId : Nat
  platformNumber : Nat
  bookingTime : Int
  selectedDuration : Int
  ticketId : Nat
  deriving DecidableEq, Repr

/-- A payment record, as built in `process_payment`. -/
structure Payment where
  paymentId : Nat
  bookingId : Nat
  amount : Int
  paymentStatus : PaymentStatus
  paymentTime : Int
  deriving DecidableEq, Repr

/-- The contents of the four JSON stores the core logic reads and writes
(`platforms.json`, `bookings.json`, `tickets.json`, `payments.json`). -/
structure AppState where
  platforms : List Platform
  bookings : List Booking
  tickets : List Ticket
  payments : List Payment
  deriving DecidableEq, Repr

/-- `get_next_id(data, key_name)` from `src/app.py`, applied to the list of
ids already extracted: returns 1 on an empty store, else `max + 1`. -/
def get_next_id (ids : List Nat) : Nat :=
  match ids with
  | [] => 1
  | _ :: _ => ids.foldl Nat.max 0 + 1

/-- `next((p for p in platforms if p.get("platformNumber") == n), None)`. -/
def findPlatform (platforms : List Platform) (n : Nat) : Option Platform :=
  platforms.find? (fun p => p.platformNumber == n)

/-- `next((t for t in tickets if t.get("ticketId") == tid), None)`. -/
def findTicket (tickets : List Ticket) (tid : Nat) : Option Ticket :=
  tickets.find? (fun t => t.ticketId == tid)

/-- `next((b for b in bookings if b.get("bookingId") == bid), None)`. -/
def findBooking (bookings : List Booking) (bid : Nat) : Option Booking :=
  bookings.find? (fun b => b.bookingId == bid)

/-- The loop body of `check_platform_availability`: a booking contributes to
`active_count` when its platform matches, its `ticketId` is truthy
(`if ticket_id:` in Python, i.e. nonzero), and its looked-up ticket exists
with status Active. -/
def bookingIsActive (tickets : List Ticket) (pn : Nat) (b : Booking) : Bool :=
  b.platformNumber == pn && (b.ticketId != 0 &&
    (match findTicket tickets b.ticketId with
     | some t => decide (t.status = TicketStatus.active)
     | none => false))

/-- The `active_count` computed inside `check_platform_availability`. -/
def active_count (st : AppState) (pn : Nat) : Nat :=
  (st.bookings.filter (bookingIsActive st.tickets pn)).length

/-- `check_platform_availability(platform_number)` from `src/app.py`. -/
def check_platform_availability (st : AppState) (pn : Nat) : Bool × String :=
  match findPlatform st.platforms pn with
  | none => (false, "Platform not found.")
  | some platform =>
    if active_count st pn ≥ platform.capacity then
      (false, "Platform " ++ toString pn ++ " is full.")
    else
      (true, "Available")

/-- The flat rate `rate_per_hour = 10` from `calculate_amount`. -/
def rate_per_hour : Int := 10

/-- `calculate_amount(duration_hours)` from `src/app.py`.  The source has no
guard on the duration, so the domain is all integers. -/
def calculate_amount (duration_hours : Int) : Int :=
  rate_per_hour * duration_hours

/-- `create_booking(user_id, platform_number, selected_duration)` from
`src/app.py`, with `datetime.now()` passed in as `now`.  Returns the new
state together with the booking the source returns. -/
def create_booking (st : AppState) (user_id platform_number : Nat)
    (selected_duration : Int) (now : Int) : AppState × Booking :=
  let booking_id := get_next_id (st.bookings.map Booking.bookingId)
  let ticket_id := get_next_id (st.tickets.map Ticket.ticketId)
  let ticket : Ticket :=
    { ticketId := ticket_id
      issueTime := now
      expiryTime := some (now + selected_duration)
      status := TicketStatus.pendingPayment
      platformNumber := platform_number }
  let booking : Booking :=
    { bookingId := booking_id
      userId := user_id
      platformNumber := platform_number
      bookingTime := now
      selectedDuration := selected_duration
      ticketId := ticket_id }
  ({ st with
      tickets := st.tickets ++ [ticket]
      bookings := st.bookings ++ [booking] }, booking)

/-- `update_ticket_state(ticket)` from `src/app.py`: if the ticket is Active
and `now` is past its expiry, mark it Expired; otherwise leave it alone.
A `none` expiry models an unparseable timestamp: the source's
`try ... except: pass` swallows the parse failure and changes nothing. -/
def update_ticket_state (ticket : Ticket) (now : Int) : Ticket :=
  if ticket.status = TicketStatus.active then
    match ticket.expiryTime with
    | some expiry => if expiry < now then { ticket with status := TicketStatus.expired } else ticket
    | none => ticket
  else
    ticket

/-- `save_ticket(ticket)` from `src/app.py`: replace the first stored ticket
with the same `ticketId` (the loop breaks after the first match); if no
ticket matches, the store is written back unchanged. -/
def save_ticket (tickets : List Ticket) (ticket : Ticket) : List Ticket :=
  match tickets with
  | [] => []
  | t :: rest =>
    if t.ticketId == ticket.ticketId then ticket :: rest
    else t :: save_ticket rest ticket

/-- `process_payment(booking_id, amount)` from `src/app.py`, with the local
variable `success` exposed as a parameter (the source hard-codes it to
`True`; the commented-out alternative randomizes it).  Appends a payment
record, then, if the booking and its linked ticket exist, unconditionally
overwrites the ticket's status: Active on success, Cancelled on failure. -/
def process_payment_with (st : AppState) (booking_id : Nat) (amount : Int)
    (success : Bool) (now : Int) : AppState × Bool × Payment :=
  let payment_id := get_next_id (st.payments.map Payment.paymentId)
  let payment : Payment :=
    { paymentId := payment_id
      bookingId := booking_id
      amount := amount
      paymentStatus := if success then PaymentStatus.success else PaymentStatus.failed
      paymentTime := now }
  let tickets' :=
    match findBooking st.bookings booking_id with
    | none => st.tickets
    | some booking =>
      match findTicket st.tickets booking.ticketId with
      | none => st.tickets
      | some ticket =>
        save_ticket st.tickets
          { ticket with
              status := if success then TicketStatus.active else TicketStatus.cancelled }
  ({ st with payments := st.payments ++ [payment], tickets := tickets' }, success, payment)

/-- The exposed `process_payment`: the source fixes `success = True`. -/
def process_payment (st : AppState) (booking_id : Nat) (amount : Int)
    (now : Int) : AppState × Bool × Payment :=
  process_payment_with st booking_id amount true now

/-- The read path that refreshes a ticket (route `ticket_details` in
`src/app.py`): look the ticket up, run `update_ticket_state` on it, and
persist it with `save_ticket`. -/
def refresh_ticket (st : AppState) (tid : Nat) (now : Int) : AppState :=
  match findTicket st.tickets tid with
  | none => st
  | some t => { st with tickets := save_ticket st.tickets (update_ticket_state t now) }

/-- The quantity the capacity invariant speaks of: the number of tickets in
state Active whose `platformNumber` is `pn`. -/
def ticketActiveCount (st : AppState) (pn : Nat) : Nat :=
  (st.tickets.filter
    (fun t => t.platformNumber == pn && decide (t.status = TicketStatus.active))).length

/-- The count described by the spec's words for `checkAvailability`: bookings
for the platform whose linked ticket currently has status Active (no
truthiness test on the ticket id). -/
def specActiveCount (st : AppState) (pn : Nat) : Nat :=
  (st.bookings.filter
    (fun b => b.platformNumber == pn &&
      (match findTicket st.tickets b.ticketId with
       | some t => decide (t.status = TicketStatus.active)
       | none => false))).length

/-- One step of the exposed operations, with booking-creation callers that
invoke `check_platform_availability` and honor its result first. -/
inductive Step : AppState → AppState → Prop where
  | create (st : AppState) (u pn : Nat) (d now : Int)
      (hok : (check_platform_availability st pn).1 = true) :
      Step st (create_booking st u pn d now).1
  | pay (st : AppState) (bid : Nat) (amount now : Int) :
      Step st (process_payment st bid amount now).1
  | refresh (st : AppState) (tid : Nat) (now : Int) :
      Step st (refresh_ticket st tid now)

/-- States reachable from an initial store with any seeded platform list and
no bookings, tickets or payments. -/
inductive Reachable : AppState → Prop where
  | init (platforms : List Platform) : Reachable ⟨platforms, [], [], []⟩
  | step {st st' : AppState} : Reachable st → Step st st' → Reachable st'

/-!  Helper lemmas about identifier allocation and the ticket store. -/

theorem foldl_max_init_le (l : List Nat) (a : Nat) : a ≤ l.foldl Nat.max a := by
  induction l generalizing a with
  | nil => exact Nat.le_refl a
  | cons x xs ih => exact Nat.le_trans (Nat.le_max_left a x) (ih (Nat.max a x))

theorem mem_le_foldl_max {l : List Nat} {x : Nat} (hx : x ∈ l) (a : Nat) :
    x ≤ l.foldl Nat.max a := by
  induction hx generalizing a with
  | head ys => exact Nat.le_trans (Nat.le_max_right a x) (foldl_max_init_le ys _)
  | tail y _ ih => exact ih (Nat.max a y)

/-- Every id already in the store is strictly below the next allocated id. -/
theorem lt_get_next_id {ids : List Nat} {x : Nat} (hx : x ∈ ids) :
    x < get_next_id ids := by
  cases ids with
  | nil => cases hx
  | cons y ys =>
    simpa [get_next_id] using Nat.lt_succ_of_le (mem_le_foldl_max hx 0)

theorem get_next_id_pos (ids : List Nat) : 1 ≤ get_next_id ids := by
  cases ids with
  | nil => simp [get_next_id]
  | cons y ys => simp [get_next_id]

theorem findTicket_cons (x : Ticket) (xs : List Ticket) (i : Nat) :
    findTicket (x :: xs) i = if x.ticketId = i then some x else findTicket xs i := by
  by_cases h : x.ticketId = i
  · rw [findTicket, List.find?_cons_of_pos _ (by simpa using h), if_pos h]
  · rw [findTicket, List.find?_cons_of_neg _ (by simpa using h), if_neg h]
    rfl

theorem save_ticket_cons (x : Ticket) (xs : List Ticket) (t : Ticket) :
    save_ticket (x :: xs) t =
      if x.ticketId = t.ticketId then t :: xs else x :: save_ticket xs t := by
  by_cases h : x.ticketId = t.ticketId
  · simp [save_ticket, h]
  · simp [save_ticket, h]

/-- `save_ticket` with a status-only update of the ticket found at id `j`
rewrites the store at exactly that id. -/
theorem findTicket_save_ticket {l : List Ticket} {j : Nat} {t0 : Ticket}
    (hfind : findTicket l j = some t0) (s : TicketStatus) (i : Nat) :
    findTicket (save_ticket l { t0 with status := s }) i =
      if i = j then some { t0 with status := s } else findTicket l i := by
  have hj : t0.ticketId = j := by
    have := List.find?_some hfind
    simpa using this
  induction l with
  | nil => simp [findTicket] at hfind
  | cons x xs ih =>
    rw [findTicket_cons] at hfind
    by_cases hx : x.ticketId = j
    · rw [if_pos hx] at hfind
      have hxt : x = t0 := by simpa using hfind
      subst hxt
      rw [save_ticket_cons, if_pos rfl, findTicket_cons]
      by_cases hi : i = j
      · subst hi
        rw [if_pos (show ({ x with status := s } : Ticket).ticketId = i from hx), if_pos rfl]
      · rw [if_neg (show ¬({ x with status := s } : Ticket).ticketId = i from
            fun h => hi ((h : x.ticketId = i).symm.trans hx)),
          if_neg hi, findTicket_cons,
          if_neg (fun h : x.ticketId = i => hi (h.symm.trans hx))]
    · rw [if_neg hx] at hfind
      have hrec := ih hfind
      rw [save_ticket_cons,
        if_neg (show ¬x.ticketId = ({ t0 with status := s } : Ticket).ticketId from
          fun h => hx ((h : x.ticketId = t0.ticketId).trans hj)),
        findTicket_cons]
      by_cases hxi : x.ticketId = i
      · rw [if_pos hxi, if_neg (fun h : i = j => hx (hxi.trans h)), findTicket_cons,
          if_pos hxi]
      · rw [if_neg hxi, hrec]
        by_cases hi : i = j
        · rw [if_pos hi, if_pos hi]
        · rw [if_neg hi, if_neg hi, findTicket_cons, if_neg hxi]

/-- A status-only `save_ticket` update leaves the (ticketId, platformNumber)
projection of the store unchanged. -/
theorem save_ticket_map_key {l : List Ticket} {j : Nat} {t0 : Ticket}
    (hfind : findTicket l j = some t0) (s : TicketStatus) :
    (save_ticket l { t0 with status := s }).map (fun t => (t.ticketId, t.platformNumber))
      = l.map (fun t => (t.ticketId, t.platformNumber)) := by
  have hj : t0.ticketId = j := by
    have := List.find?_some hfind
    simpa using this
  induction l with
  | nil => simp [save_ticket]
  | cons x xs ih =>
    rw [findTicket_cons] at hfind
    by_cases hx : x.ticketId = j
    · rw [if_pos hx] at hfind
      have hxt : x = t0 := by simpa using hfind
      subst hxt
      rw [save_ticket_cons, if_pos rfl]
      simp
    · rw [if_neg hx] at hfind
      rw [save_ticket_cons,
        if_neg (show ¬x.ticketId = ({ t0 with status := s } : Ticket).ticketId from
          fun h => hx ((h : x.ticketId = t0.ticketId).trans hj))]
      simp [ih hfind]

/-- In a store with no duplicate ticket ids, looking up a stored ticket's id
finds that ticket. -/
theorem findTicket_self {l : List Ticket} (hnd : (l.map Ticket.ticketId).Nodup)
    {t : Ticket} (ht : t ∈ l) : findTicket l t.ticketId = some t := by
  induction l with
  | nil => cases ht
  | cons x xs ih =>
    rcases List.mem_cons.1 ht with rfl | hmem
    · exact List.find?_cons_of_pos _ (by simp)
    · have hx : x.ticketId ≠ t.ticketId := by
        intro h
        have : t.ticketId ∈ xs.map Ticket.ticketId := List.mem_map_of_mem _ hmem
        rw [List.map_cons, List.nodup_cons] at hnd
        exact hnd.1 (h ▸ this)
      rw [findTicket, List.find?_cons_of_neg _ (by simpa using hx)]
      exact ih (by rw [List.map_cons, List.nodup_cons] at hnd; exact hnd.2) hmem

/-- `update_ticket_state` only ever touches the status field. -/
theorem update_ticket_state_shape (t : Ticket) (now : Int) :
    ∃ s, update_ticket_state t now = { t with status := s } := by
  obtain ⟨tid, it, et, st0, pn⟩ := t
  unfold update_ticket_state
  by_cases hs : st0 = TicketStatus.active
  · cases et with
    | none => exact ⟨st0, by simp [hs]⟩
    | some e =>
      by_cases hlt : e < now
      · exact ⟨TicketStatus.expired, by simp [hs, hlt]⟩
      · exact ⟨st0, by simp [hs, hlt]⟩
  · exact ⟨st0, by simp [hs]⟩

/-!  Ticket lifecycle claims (C6, C7, C8, C9). -/

/-- C6: `refreshState` transitions a ticket's status to Expired exactly when
the status is Active and the current time is strictly greater than the
ticket's expiry time; it is a no-op for tickets in PendingPayment,
Cancelled, or already-Expired status regardless of elapsed time. -/
theorem c6_refresh_exact (t : Ticket) (now : Int) :
    (t.status = TicketStatus.active → ∀ e, t.expiryTime = some e → e < now →
      update_ticket_state t now = { t with status := TicketStatus.expired }) ∧
    (t.status = TicketStatus.active → ∀ e, t.expiryTime = some e → ¬ e < now →
      update_ticket_state t now = t) ∧
    (t.status ≠ TicketStatus.active → update_ticket_state t now = t) ∧
    ((update_ticket_state t now).status = TicketStatus.expired →
      t.status ≠ TicketStatus.expired →
      t.status = TicketStatus.active ∧ ∃ e, t.expiryTime = some e ∧ e < now) := by
  unfold update_ticket_state
  refine ⟨?_, ?_, ?_, ?_⟩
  · intro hs e he hlt
    simp [hs, he, hlt]
  · intro hs e he hlt
    simp [hs, he, hlt]
  · intro hs
    simp [hs]
  · intro hexp hne
    by_cases hs : t.status = TicketStatus.active
    · refine ⟨hs, ?_⟩
      cases he : t.expiryTime with
      | none => simp [hs, he] at hexp
      | some e =>
        by_cases hlt : e < now
        · exact ⟨e, rfl, hlt⟩
        · simp [hs, he, hlt] at hexp
    · simp [hs] at hexp
      exact absurd hexp hne

/-- Witness for C6 at concrete tickets: an Active ticket past its expiry
transitions to Expired and a Cancelled ticket is untouched. -/
theorem c6_refresh_exact_witness :
    update_ticket_state
        { ticketId := 1, issueTime := 0, expiryTime := some 2,
          status := TicketStatus.active, platformNumber := 1 } 5 =
      { ticketId := 1, issueTime := 0, expiryTime := some 2,
        status := TicketStatus.expired, platformNumber := 1 } ∧
    update_ticket_state
        { ticketId := 2, issueTime := 0, expiryTime := some 2,
          status := TicketStatus.cancelled, platformNumber := 1 } 5 =
      { ticketId := 2, issueTime := 0, expiryTime := some 2,
        status := TicketStatus.cancelled, platformNumber := 1 } :=
  ⟨(c6_refresh_exact _ 5).1 rfl 2 rfl (by decide),
   (c6_refresh_exact _ 5).2.2.1 (by decide)⟩

/-- C7: `refreshState` is idempotent at a fixed observation time: applying it
twice yields the same ticket as applying it once. -/
theorem c7_refresh_idempotent (t : Ticket) (now : Int) :
    update_ticket_state (update_ticket_state t now) now = update_ticket_state t now := by
  unfold update_ticket_state
  by_cases hs : t.status = TicketStatus.active
  · cases he : t.expiryTime with
    | none => simp [hs, he]
    | some e =>
      by_cases hlt : e < now
      · simp [hs, he, hlt]
      · simp [hs, he, hlt]
  · simp [hs]

/-- C8: `calculateAmount` is the pure function `fun d => rate_per_hour * d`
with the fixed rate 10, defined for every integer duration (the source has
no guard rejecting non-positive durations). -/
theorem c8_calculate_amount :
    (∀ d : Int, calculate_amount d = rate_per_hour * d) ∧
    rate_per_hour = 10 ∧ calculate_amount (-2) = -20 :=
  ⟨fun _ => rfl, rfl, rfl⟩

/-- C9: on an Active ticket whose stored expiry timestamp is unparseable
(modelled by `expiryTime = none`), `refreshState` swallows the parse failure
and returns the ticket unchanged: no transition, no escaping exception. -/
theorem c9_refresh_malformed_expiry (t : Ticket) (now : Int)
    (hs : t.status = TicketStatus.active) (he : t.expiryTime = none) :
    update_ticket_state t now = t := by
  unfold update_ticket_state
  simp [hs, he]

/-- Witness for C9 at a concrete Active ticket with unparseable expiry. -/
theorem c9_refresh_malformed_expiry_witness :
    update_ticket_state
        { ticketId := 3, issueTime := 0, expiryTime := none,
          status := TicketStatus.active, platformNumber := 1 } 100 =
      { ticketId := 3, issueTime := 0, expiryTime := none,
        status := TicketStatus.active, platformNumber := 1 } :=
  c9_refresh_malformed_expiry _ 100 rfl rfl

/-!  Booking creation (C5) and payment settlement (C3, C10). -/

/-- C5: `createBooking` persists exactly one new ticket in state
PendingPayment with expiry = issue time + duration, and exactly one new
booking referencing that ticket's id, both with freshly allocated
identifiers strictly above every existing one, and returns the persisted
booking; platforms and payments are untouched. -/
theorem c5_create_booking (st : AppState) (u pn : Nat) (d now : Int) :
    ∃ t : Ticket,
      (create_booking st u pn d now).1.tickets = st.tickets ++ [t] ∧
      t.status = TicketStatus.pendingPayment ∧
      t.issueTime = now ∧
      t.expiryTime = some (t.issueTime + d) ∧
      t.platformNumber = pn ∧
      (create_booking st u pn d now).1.bookings
        = st.bookings ++ [(create_booking st u pn d now).2] ∧
      (create_booking st u pn d now).2.ticketId = t.ticketId ∧
      (create_booking st u pn d now).2.userId = u ∧
      (create_booking st u pn d now).2.platformNumber = pn ∧
      (create_booking st u pn d now).2.selectedDuration = d ∧
      (create_booking st u pn d now).2.bookingTime = now ∧
      (∀ b0 ∈ st.bookings, b0.bookingId < (create_booking st u pn d now).2.bookingId) ∧
      (∀ t0 ∈ st.tickets, t0.ticketId < t.ticketId) ∧
      (create_booking st u pn d now).1.platforms = st.platforms ∧
      (create_booking st u pn d now).1.payments = st.payments := by
  refine ⟨{ ticketId := get_next_id (st.tickets.map Ticket.ticketId)
            issueTime := now
            expiryTime := some (now + d)
            status := TicketStatus.pendingPayment
            platformNumber := pn },
    rfl, rfl, rfl, rfl, rfl, rfl, rfl, rfl, rfl, rfl, rfl, ?_, ?_, rfl, rfl⟩
  · intro b0 hb0
    exact lt_get_next_id (List.mem_map_of_mem Booking.bookingId hb0)
  · intro t0 ht0
    exact lt_get_next_id (List.mem_map_of_mem Ticket.ticketId ht0)

/-- A concrete store used by the witnesses: one platform of capacity 1, one
booking whose ticket is Active. -/
def demoState : AppState :=
  { platforms := [{ platformNumber := 1, capacity := 1 }]
    bookings := [{ bookingId := 1, userId := 7, platformNumber := 1,
                   bookingTime := 0, selectedDuration := 1, ticketId := 1 }]
    tickets := [{ ticketId := 1, issueTime := 0, expiryTime := some 1,
                  status := TicketStatus.active, platformNumber := 1 }]
    payments := [] }

/-- Witness for C5: at `demoState` the freshly created booking's id is
strictly above the existing booking id 1. -/
theorem c5_create_booking_witness :
    1 < (create_booking demoState 7 1 2 0).2.bookingId := by
  obtain ⟨t, -, -, -, -, -, -, -, -, -, -, -, hfresh, -, -, -⟩ :=
    c5_create_booking demoState 7 1 2 0
  exact hfresh { bookingId := 1, userId := 7, platformNumber := 1,
                 bookingTime := 0, selectedDuration := 1, ticketId := 1 }
    (by simp [demoState])

/-- C3: for a booking id present in the store (with an existing linked
ticket), `processPayment` appends exactly one payment record carrying the
amount as given and status SUCCESS or FAILED, and overwrites the linked
ticket's status to Active on success and Cancelled on failure, without any
check that the ticket is currently PendingPayment (the prior status `t` is
arbitrary here).  The source pins the settlement outcome `success = True`;
the theorem covers both values of that variable. -/
theorem c3_process_payment (st : AppState) (bid : Nat) (amount : Int)
    (succ : Bool) (now : Int) {b : Booking}
    (hb : findBooking st.bookings bid = some b)
    {t : Ticket} (ht : findTicket st.tickets b.ticketId = some t) :
    (process_payment_with st bid amount succ now).1.payments
      = st.payments ++ [(process_payment_with st bid amount succ now).2.2] ∧
    (process_payment_with st bid amount succ now).2.2.amount = amount ∧
    (process_payment_with st bid amount succ now).2.2.bookingId = bid ∧
    ((process_payment_with st bid amount succ now).2.2.paymentStatus = PaymentStatus.success
      ∨ (process_payment_with st bid amount succ now).2.2.paymentStatus = PaymentStatus.failed) ∧
    (process_payment_with st bid amount succ now).2.2.paymentStatus
      = (if succ then PaymentStatus.success else PaymentStatus.failed) ∧
    (process_payment_with st bid amount succ now).2.1 = succ ∧
    findTicket (process_payment_with st bid amount succ now).1.tickets b.ticketId
      = some { t with
          status := if succ then TicketStatus.active else TicketStatus.cancelled } ∧
    (process_payment_with st bid amount succ now).1.bookings = st.bookings := by
  refine ⟨rfl, rfl, rfl, ?_, rfl, rfl, ?_, rfl⟩
  · cases succ with
    | true => exact Or.inl rfl
    | false => exact Or.inr rfl
  · show findTicket
        (match findBooking st.bookings bid with
         | none => st.tickets
         | some booking =>
           match findTicket st.tickets booking.ticketId with
           | none => st.tickets
           | some ticket =>
             save_ticket st.tickets
               { ticket with
                   status := if succ then TicketStatus.active else TicketStatus.cancelled })
        b.ticketId = _
    rw [hb]
    show findTicket
        (match findTicket st.tickets b.ticketId with
         | none => st.tickets
         | some ticket =>
           save_ticket st.tickets
             { ticket with
                 status := if succ then TicketStatus.active else TicketStatus.cancelled })
        b.ticketId = _
    rw [ht]
    show findTicket
        (save_ticket st.tickets
          { t with status := if succ then TicketStatus.active else TicketStatus.cancelled })
        b.ticketId = _
    rw [findTicket_save_ticket ht _ b.ticketId, if_pos rfl]

/-- Witness for C3 at `demoState`: settling booking 1 (whose ticket is
already Active, not PendingPayment) re-writes the ticket to Active on the
success branch and to Cancelled on the failure branch. -/
theorem c3_process_payment_witness :
    findTicket (process_payment_with demoState 1 10 true 0).1.tickets 1
      = some { ticketId := 1, issueTime := 0, expiryTime := some 1,
               status := TicketStatus.active, platformNumber := 1 } ∧
    findTicket (process_payment_with demoState 1 10 false 0).1.tickets 1
      = some { ticketId := 1, issueTime := 0, expiryTime := some 1,
               status := TicketStatus.cancelled, platformNumber := 1 } := by
  constructor
  · exact (c3_process_payment demoState 1 10 true 0 (by rfl) (by rfl)).2.2.2.2.2.2.1
  · exact (c3_process_payment demoState 1 10 false 0 (by rfl) (by rfl)).2.2.2.2.2.2.1

/-- C10: for a booking id absent from the store, `processPayment` still
appends a SUCCESS payment record and reports success, while the ticket
store is left completely unchanged. -/
theorem c10_process_payment_absent (st : AppState) (bid : Nat) (amount : Int)
    (now : Int) (hb : findBooking st.bookings bid = none) :
    (process_payment st bid amount now).1.tickets = st.tickets ∧
    (process_payment st bid amount now).2.1 = true ∧
    (process_payment st bid amount now).1.payments
      = st.payments ++ [(process_payment st bid amount now).2.2] ∧
    (process_payment st bid amount now).2.2.paymentStatus = PaymentStatus.success ∧
    (process_payment st bid amount now).2.2.bookingId = bid ∧
    (process_payment st bid amount now).2.2.amount = amount ∧
    (process_payment st bid amount now).1.bookings = st.bookings := by
  refine ⟨?_, rfl, rfl, rfl, rfl, rfl, rfl⟩
  show (match findBooking st.bookings bid with
        | none => st.tickets
        | some booking =>
          match findTicket st.tickets booking.ticketId with
          | none => st.tickets
          | some ticket =>
            save_ticket st.tickets
              { ticket with
                  status := if true then TicketStatus.active else TicketStatus.cancelled })
      = st.tickets
  rw [hb]

/-- Witness for C10: settling the absent booking id 99 at `demoState`. -/
theorem c10_process_payment_absent_witness :
    (process_payment demoState 99 10 0).1.tickets = demoState.tickets ∧
    (process_payment demoState 99 10 0).2.1 = true := by
  have h := c10_process_payment_absent demoState 99 10 0 (by rfl)
  exact ⟨h.1, h.2.1⟩

/-!  Availability evaluation (C4). -/

/-- The code's loop count agrees with the spec-worded count whenever no
booking carries ticket id 0 (ids allocated by `get_next_id` start at 1; the
code's extra `if ticket_id:` truthiness test is then vacuous). -/
theorem active_count_eq_specActiveCount (st : AppState) (pn : Nat)
    (hids : ∀ b ∈ st.bookings, b.ticketId ≠ 0) :
    active_count st pn = specActiveCount st pn := by
  unfold active_count specActiveCount
  rw [List.filter_congr]
  intro b hb
  have hnz : (b.ticketId != 0) = true := by simpa using hids b hb
  simp [bookingIsActive, hnz]

/-- C4: `checkAvailability` answers not-allowed with the platform-not-found
message when the platform id is unknown; otherwise it answers not-allowed
with the platform-full message exactly when the count of bookings whose
linked ticket is currently Active reaches the capacity, and allowed
otherwise. -/
theorem c4_check_availability (st : AppState) (pn : Nat)
    (hids : ∀ b ∈ st.bookings, b.ticketId ≠ 0) :
    (findPlatform st.platforms pn = none →
      check_platform_availability st pn = (false, "Platform not found.")) ∧
    (∀ p : Platform, findPlatform st.platforms pn = some p →
      (p.capacity ≤ specActiveCount st pn →
        check_platform_availability st pn
          = (false, "Platform " ++ toString pn ++ " is full.")) ∧
      (specActiveCount st pn < p.capacity →
        check_platform_availability st pn = (true, "Available")) ∧
      ((check_platform_availability st pn).1 = true ↔
        specActiveCount st pn < p.capacity)) := by
  have hc := active_count_eq_specActiveCount st pn hids
  constructor
  · intro hnone
    simp [check_platform_availability, hnone]
  · intro p hp
    refine ⟨?_, ?_, ?_⟩
    · intro hfull
      simp [check_platform_availability, hp, hc, hfull]
    · intro hroom
      simp [check_platform_availability, hp, hc, Nat.not_le.mpr hroom]
    · constructor
      · intro htrue
        by_contra hge
        simp [check_platform_availability, hp, hc, Nat.le_of_not_lt hge] at htrue
      · intro hroom
        simp [check_platform_availability, hp, hc, Nat.not_le.mpr hroom]

/-- Witness for C4 at `demoState`: platform 1 has capacity 1 and one Active
booking, so availability is denied with the platform-full message; the
unknown platform 9 is denied with the not-found message. -/
theorem c4_check_availability_witness :
    check_platform_availability demoState 1
      = (false, "Platform " ++ toString 1 ++ " is full.") ∧
    check_platform_availability demoState 9 = (false, "Platform not found.") := by
  have h := c4_check_availability demoState 1 (by decide)
  have h9 := c4_check_availability demoState 9 (by decide)
  exact ⟨(h.2 { platformNumber := 1, capacity := 1 } rfl).1 (by decide),
    h9.1 rfl⟩

/-!  Structural invariant of reachable stores: bookings and tickets are in
a 1:1 correspondence through distinct, positive ticket ids, with matching
platform numbers. -/

structure Inv (st : AppState) : Prop where
  tNodup : (st.tickets.map Ticket.ticketId).Nodup
  bNodup : (st.bookings.map Booking.ticketId).Nodup
  fwd : ∀ b ∈ st.bookings, ∃ t ∈ st.tickets,
    t.ticketId = b.ticketId ∧ t.platformNumber = b.platformNumber
  bwd : ∀ t ∈ st.tickets, t.ticketId ∈ st.bookings.map Booking.ticketId
  tid_pos : ∀ b ∈ st.bookings, 1 ≤ b.ticketId

theorem inv_init (platforms : List Platform) :
    Inv ⟨platforms, [], [], []⟩ := by
  refine ⟨List.nodup_nil, List.nodup_nil, ?_, ?_, ?_⟩ <;> intro x hx <;> cases hx

/-- The invariant transfers along any state change that keeps the bookings
and the (ticketId, platformNumber) projection of the ticket store. -/
theorem inv_transfer {st st' : AppState} (h : Inv st)
    (hbook : st'.bookings = st.bookings)
    (hkey : st'.tickets.map (fun t => (t.ticketId, t.platformNumber))
      = st.tickets.map (fun t => (t.ticketId, t.platformNumber))) :
    Inv st' := by
  have hid : st'.tickets.map Ticket.ticketId = st.tickets.map Ticket.ticketId := by
    have := congrArg (List.map Prod.fst) hkey
    simpa [List.map_map, Function.comp] using this
  refine ⟨?_, ?_, ?_, ?_, ?_⟩
  · rw [hid]
    exact h.tNodup
  · rw [hbook]
    exact h.bNodup
  · intro b hb
    rw [hbook] at hb
    obtain ⟨t, ht, htid, htpn⟩ := h.fwd b hb
    have hmem : (t.ticketId, t.platformNumber)
        ∈ st'.tickets.map (fun t => (t.ticketId, t.platformNumber)) := by
      rw [hkey]
      exact List.mem_map_of_mem _ ht
    obtain ⟨t', ht', hkey'⟩ := List.mem_map.1 hmem
    exact ⟨t', ht', (congrArg Prod.fst hkey').trans htid,
      (congrArg Prod.snd hkey').trans htpn⟩
  · intro t' ht'
    have hmem : (t'.ticketId, t'.platformNumber)
        ∈ st.tickets.map (fun t => (t.ticketId, t.platformNumber)) := by
      rw [← hkey]
      exact List.mem_map_of_mem _ ht'
    obtain ⟨t, ht, hkey'⟩ := List.mem_map.1 hmem
    have h1 : t.ticketId = t'.ticketId := congrArg Prod.fst hkey'
    have := h.bwd t ht
    rw [hbook]
    rwa [h1] at this
  · intro b hb
    rw [hbook] at hb
    exact h.tid_pos b hb

theorem inv_create {st : AppState} (h : Inv st) (u pn : Nat) (d now : Int) :
    Inv (create_booking st u pn d now).1 := by
  have hfreshT : ∀ x ∈ st.tickets.map Ticket.ticketId,
      x ≠ get_next_id (st.tickets.map Ticket.ticketId) :=
    fun x hx => Nat.ne_of_lt (lt_get_next_id hx)
  have hfreshB : ∀ x ∈ st.bookings.map Booking.ticketId,
      x ≠ get_next_id (st.tickets.map Ticket.ticketId) := by
    intro x hx
    obtain ⟨b, hb, hbid⟩ := List.mem_map.1 hx
    obtain ⟨t, ht, htid, -⟩ := h.fwd b hb
    exact hbid ▸ htid ▸ hfreshT _ (List.mem_map_of_mem _ ht)
  constructor
  · show ((st.tickets ++ [_]).map Ticket.ticketId).Nodup
    rw [List.map_append]
    refine List.nodup_append.2 ⟨h.tNodup, List.nodup_singleton _, ?_⟩
    intro x hx hx'
    have hx'' : x = get_next_id (st.tickets.map Ticket.ticketId) := by simpa using hx'
    exact hfreshT x hx hx''
  · show ((st.bookings ++ [_]).map Booking.ticketId).Nodup
    rw [List.map_append]
    refine List.nodup_append.2 ⟨h.bNodup, List.nodup_singleton _, ?_⟩
    intro x hx hx'
    have hx'' : x = get_next_id (st.tickets.map Ticket.ticketId) := by simpa using hx'
    exact hfreshB x hx hx''
  · intro b hb
    rcases List.mem_append.1 hb with hb | hb
    · obtain ⟨t, ht, htid, htpn⟩ := h.fwd b hb
      exact ⟨t, List.mem_append_left _ ht, htid, htpn⟩
    · have hb' : b = (create_booking st u pn d now).2 := by simpa using hb
      subst hb'
      exact ⟨{ ticketId := get_next_id (st.tickets.map Ticket.ticketId)
               issueTime := now
               expiryTime := some (now + d)
               status := TicketStatus.pendingPayment
               platformNumber := pn },
        List.mem_append_right _ (List.mem_singleton_self _), by rfl, by rfl⟩
  · intro t ht
    show t.ticketId ∈ (st.bookings ++ [(create_booking st u pn d now).2]).map Booking.ticketId
    rw [List.map_append]
    rcases List.mem_append.1 ht with ht | ht
    · exact List.mem_append_left _ (h.bwd t ht)
    · have ht' : t = { ticketId := get_next_id (st.tickets.map Ticket.ticketId)
                       issueTime := now
                       expiryTime := some (now + d)
                       status := TicketStatus.pendingPayment
                       platformNumber := pn } := by simpa using ht
      subst ht'
      exact List.mem_append_right _
        (List.mem_map_of_mem Booking.ticketId (List.mem_singleton_self _))
  · intro b hb
    rcases List.mem_append.1 hb with hb | hb
    · exact h.tid_pos b hb
    · have hb' : b = (create_booking st u pn d now).2 := by simpa using hb
      subst hb'
      exact get_next_id_pos _

theorem inv_pay {st : AppState} (h : Inv st) (bid : Nat) (amount : Int)
    (succ : Bool) (now : Int) :
    Inv (process_payment_with st bid amount succ now).1 := by
  refine inv_transfer h rfl ?_
  show (match findBooking st.bookings bid with
        | none => st.tickets
        | some booking =>
          match findTicket st.tickets booking.ticketId with
          | none => st.tickets
          | some ticket =>
            save_ticket st.tickets
              { ticket with
                  status := if succ then TicketStatus.active
                    else TicketStatus.cancelled }).map _
      = st.tickets.map _
  cases hfb : findBooking st.bookings bid with
  | none => rfl
  | some booking =>
    show (match findTicket st.tickets booking.ticketId with
          | none => st.tickets
          | some ticket =>
            save_ticket st.tickets
              { ticket with
                  status := if succ then TicketStatus.active
                    else TicketStatus.cancelled }).map _
        = st.tickets.map _
    cases hft : findTicket st.tickets booking.ticketId with
    | none => rfl
    | some ticket =>
      show (save_ticket st.tickets
          { ticket with
              status := if succ then TicketStatus.active
                else TicketStatus.cancelled }).map _
        = st.tickets.map _
      exact save_ticket_map_key hft _

theorem inv_refresh {st : AppState} (h : Inv st) (tid : Nat) (now : Int) :
    Inv (refresh_ticket st tid now) := by
  unfold refresh_ticket
  cases hft : findTicket st.tickets tid with
  | none => exact h
  | some t =>
    obtain ⟨s, hs⟩ := update_ticket_state_shape t now
    refine inv_transfer h rfl ?_
    show (save_ticket st.tickets (update_ticket_state t now)).map _ = st.tickets.map _
    rw [hs]
    exact save_ticket_map_key hft s

theorem inv_reachable {st : AppState} (h : Reachable st) : Inv st := by
  induction h with
  | init platforms => exact inv_init platforms
  | step _ hstep ih =>
    cases hstep with
    | create u pn d now hok => exact inv_create ih u pn d now
    | pay bid amount now => exact inv_pay ih bid amount true now
    | refresh tid now => exact inv_refresh ih tid now
/-- Under the invariant, the booking-based count used by the availability
check agrees with the ticket-based count the capacity invariant speaks of. -/
theorem active_count_eq_ticketActiveCount {st : AppState} (h : Inv st) (pn : Nat) :
    active_count st pn = ticketActiveCount st pn := by
  set f : Nat → Bool := fun i =>
    match findTicket st.tickets i with
    | some t => t.platformNumber == pn && decide (t.status = TicketStatus.active)
    | none => false with hf
  have hA : st.bookings.countP (bookingIsActive st.tickets pn)
      = st.bookings.countP (fun b => f b.ticketId) := by
    apply List.countP_congr
    intro b hb
    obtain ⟨t, ht, htid, htpn⟩ := h.fwd b hb
    have hfind : findTicket st.tickets b.ticketId = some t := by
      have := findTicket_self h.tNodup ht
      rwa [htid] at this
    have hnz : (b.ticketId != 0) = true := by
      have := h.tid_pos b hb
      simp only [bne_iff_ne, ne_eq]
      omega
    simp [bookingIsActive, hf, hfind, hnz, htpn]
  have hB : (st.bookings.map Booking.ticketId).countP f
      = st.bookings.countP (fun b => f b.ticketId) := by
    rw [List.countP_map]
    rfl
  have hmem : ∀ x, x ∈ st.bookings.map Booking.ticketId
      ↔ x ∈ st.tickets.map Ticket.ticketId := by
    intro x
    constructor
    · intro hx
      obtain ⟨b, hb, rfl⟩ := List.mem_map.1 hx
      obtain ⟨t, ht, htid, -⟩ := h.fwd b hb
      exact htid ▸ List.mem_map_of_mem _ ht
    · intro hx
      obtain ⟨t, ht, rfl⟩ := List.mem_map.1 hx
      exact h.bwd t ht
  have hperm : List.Perm (st.bookings.map Booking.ticketId)
      (st.tickets.map Ticket.ticketId) :=
    (List.perm_ext_iff_of_nodup h.bNodup h.tNodup).2 hmem
  have hC := hperm.countP_eq f
  have hD : (st.tickets.map Ticket.ticketId).countP f
      = st.tickets.countP
          (fun t => t.platformNumber == pn && decide (t.status = TicketStatus.active)) := by
    rw [List.countP_map]
    apply List.countP_congr
    intro t ht
    have hfind : findTicket st.tickets t.ticketId = some t := findTicket_self h.tNodup ht
    simp [Function.comp, hf, hfind]
  unfold active_count ticketActiveCount
  rw [← List.countP_eq_length_filter, ← List.countP_eq_length_filter,
    hA, ← hB, hC, hD]

/-!  Capacity invariant (C1). -/

/-- The literal formalization of C1: in every reachable state, after any
guarded `createBooking` commits, every platform's count of Active tickets
is within its capacity. -/
def CapacityClaim : Prop :=
  ∀ (st : AppState), Reachable st → ∀ (u pn : Nat) (d now : Int),
    (check_platform_availability st pn).1 = true →
    ∀ p ∈ (create_booking st u pn d now).1.platforms,
      ticketActiveCount (create_booking st u pn d now).1 p.platformNumber ≤ p.capacity

/-- C1 (amended): in every reachable state, immediately after a guarded
`createBooking` for platform `pn` commits, the count of Active tickets on
platform `pn` itself does not exceed that platform's capacity. -/
theorem c1_capacity_after_create (st : AppState) (hreach : Reachable st)
    (u pn : Nat) (d now : Int) (p : Platform)
    (hok : (check_platform_availability st pn).1 = true)
    (hp : findPlatform st.platforms pn = some p) :
    ticketActiveCount (create_booking st u pn d now).1 pn ≤ p.capacity := by
  have hinv := inv_reachable hreach
  have hticks : (create_booking st u pn d now).1.tickets
      = st.tickets ++ [{ ticketId := get_next_id (st.tickets.map Ticket.ticketId)
                         issueTime := now
                         expiryTime := some (now + d)
                         status := TicketStatus.pendingPayment
                         platformNumber := pn }] := rfl
  have hsame : ticketActiveCount (create_booking st u pn d now).1 pn
      = ticketActiveCount st pn := by
    unfold ticketActiveCount
    rw [hticks, List.filter_append]
    simp
  have hlt : active_count st pn < p.capacity := by
    unfold check_platform_availability at hok
    rw [hp] at hok
    have hok2 : (if active_count st pn ≥ p.capacity then
        (false, "Platform " ++ toString pn ++ " is full.")
      else (true, "Available")).1 = true := hok
    by_cases hge : active_count st pn ≥ p.capacity
    · rw [if_pos hge] at hok2
      cases hok2
    · exact Nat.not_le.1 hge
  rw [hsame, ← active_count_eq_ticketActiveCount hinv pn]
  exact Nat.le_of_lt hlt

/-- Witness for the amended C1: booking platform 1 from a fresh store. -/
theorem c1_capacity_after_create_witness :
    ticketActiveCount
      (create_booking ⟨[{ platformNumber := 1, capacity := 1 }], [], [], []⟩ 7 1 2 0).1 1
      ≤ 1 :=
  c1_capacity_after_create _ (Reachable.init _) 7 1 2 0
    { platformNumber := 1, capacity := 1 } (by decide) (by decide)

/-- The oversubscription trace refuting C1 as literally stated: platform 1
has capacity 1.  Book it, settle, let the ticket expire, book it again,
settle the second booking, then settle the *first* booking a second time —
the duplicate settlement re-activates the expired ticket, so platform 1 now
holds 2 Active tickets.  A final booking of platform 2 commits while
platform 1 is over capacity. -/
def cexS0 : AppState :=
  ⟨[{ platformNumber := 1, capacity := 1 }, { platformNumber := 2, capacity := 5 }],
    [], [], []⟩

def cexS1 : AppState := (create_booking cexS0 1 1 1 0).1

def cexS2 : AppState := (process_payment cexS1 1 10 0).1

def cexS3 : AppState := refresh_ticket cexS2 1 2

def cexS4 : AppState := (create_booking cexS3 1 1 1 2).1

def cexS5 : AppState := (process_payment cexS4 2 10 2).1

def cexS6 : AppState := (process_payment cexS5 1 10 2).1

theorem cexS6_reachable : Reachable cexS6 :=
  Reachable.step
    (Reachable.step
      (Reachable.step
        (Reachable.step
          (Reachable.step
            (Reachable.step (Reachable.init _)
              (Step.create cexS0 1 1 1 0 (by decide)))
            (Step.pay cexS1 1 10 0))
          (Step.refresh cexS2 1 2))
        (Step.create cexS3 1 1 1 2 (by decide)))
      (Step.pay cexS4 2 10 2))
    (Step.pay cexS5 1 10 2)

/-- Counterexample to C1 as stated: from the reachable state `cexS6`
(platform 1 over capacity through a duplicate settlement), a guarded
`createBooking` for platform 2 commits while platform 1 holds 2 Active
tickets against capacity 1. -/
theorem c1_capacity_counterexample : ¬ CapacityClaim := by
  intro hclaim
  have h := hclaim cexS6 cexS6_reachable 1 2 1 2 (by decide)
    { platformNumber := 1, capacity := 1 } (by decide)
  exact absurd h (by decide)

/-!  Ticket state-machine closure (C2). -/

theorem findTicket_append_left {l : List Ticket} {i : Nat} {t : Ticket}
    (h : findTicket l i = some t) (l2 : List Ticket) :
    findTicket (l ++ l2) i = some t := by
  unfold findTicket at h ⊢
  rw [List.find?_append, h]
  rfl

theorem update_ticket_state_status (t : Ticket) (now : Int) :
    (update_ticket_state t now).status = t.status ∨
    (t.status = TicketStatus.active ∧
      (update_ticket_state t now).status = TicketStatus.expired) := by
  unfold update_ticket_state
  by_cases hs : t.status = TicketStatus.active
  · cases he : t.expiryTime with
    | none => left; simp [hs, he]
    | some e =>
      by_cases hlt : e < now
      · right; exact ⟨hs, by simp [hs, he, hlt]⟩
      · left; simp [hs, he, hlt]
  · left; simp [hs]

/-- The literal formalization of C2's closure half: across any exposed
operation from a reachable state, a ticket never leaves Expired or
Cancelled for PendingPayment or Active. -/
def TicketClosureClaim : Prop :=
  ∀ (st st' : AppState), Reachable st → Step st st' →
    ∀ (tid : Nat) (t t' : Ticket),
      findTicket st.tickets tid = some t →
      findTicket st'.tickets tid = some t' →
      (t.status = TicketStatus.expired ∨ t.status = TicketStatus.cancelled) →
      t'.status ≠ TicketStatus.pendingPayment ∧ t'.status ≠ TicketStatus.active

/-- C2 (amended): across any single exposed operation, a ticket's status
either changes along Active → Expired (lazy expiry), or it is overwritten
to Active by a payment settlement — the settlement path does not check the
current status, so a late or duplicate settlement can move a ticket from
Expired (or Cancelled) back to Active.  No other status change occurs. -/
theorem c2_status_edges {st st' : AppState} (hstep : Step st st')
    (tid : Nat) (t t' : Ticket)
    (ht : findTicket st.tickets tid = some t)
    (ht' : findTicket st'.tickets tid = some t')
    (hne : t.status ≠ t'.status) :
    (t.status = TicketStatus.active ∧ t'.status = TicketStatus.expired) ∨
    t'.status = TicketStatus.active := by
  cases hstep with
  | create u pn d now hok =>
    exfalso
    have h2 : findTicket
        (st.tickets ++ [{ ticketId := get_next_id (st.tickets.map Ticket.ticketId)
                          issueTime := now
                          expiryTime := some (now + d)
                          status := TicketStatus.pendingPayment
                          platformNumber := pn }]) tid = some t' := ht'
    have h1 := findTicket_append_left ht
      [{ ticketId := get_next_id (st.tickets.map Ticket.ticketId)
         issueTime := now
         expiryTime := some (now + d)
         status := TicketStatus.pendingPayment
         platformNumber := pn }]
    exact hne (congrArg Ticket.status (Option.some.inj (h1.symm.trans h2)))
  | pay bid amount now =>
    have ht'' : findTicket
        (match findBooking st.bookings bid with
         | none => st.tickets
         | some booking =>
           match findTicket st.tickets booking.ticketId with
           | none => st.tickets
           | some ticket =>
             save_ticket st.tickets { ticket with status := TicketStatus.active })
        tid = some t' := ht'
    cases hfb : findBooking st.bookings bid with
    | none =>
      rw [hfb] at ht''
      have ht3 : findTicket st.tickets tid = some t' := ht''
      exact absurd (congrArg Ticket.status (Option.some.inj (ht.symm.trans ht3))) hne
    | some booking =>
      rw [hfb] at ht''
      have ht3 : findTicket
          (match findTicket st.tickets booking.ticketId with
           | none => st.tickets
           | some ticket =>
             save_ticket st.tickets { ticket with status := TicketStatus.active })
          tid = some t' := ht''
      cases hft : findTicket st.tickets booking.ticketId with
      | none =>
        rw [hft] at ht3
        have ht4 : findTicket st.tickets tid = some t' := ht3
        exact absurd (congrArg Ticket.status (Option.some.inj (ht.symm.trans ht4))) hne
      | some ticket =>
        rw [hft] at ht3
        have ht4 : findTicket
            (save_ticket st.tickets { ticket with status := TicketStatus.active })
            tid = some t' := ht3
        rw [findTicket_save_ticket hft TicketStatus.active tid] at ht4
        by_cases hid : tid = booking.ticketId
        · rw [if_pos hid] at ht4
          right
          have heq : ({ ticket with status := TicketStatus.active } : Ticket) = t' :=
            Option.some.inj ht4
          exact (congrArg Ticket.status heq).symm.trans rfl
        · rw [if_neg hid] at ht4
          exact absurd (congrArg Ticket.status (Option.some.inj (ht.symm.trans ht4))) hne
  | refresh rid now =>
    have ht'' : findTicket
        (match findTicket st.tickets rid with
         | none => st
         | some t0 =>
           { st with tickets := save_ticket st.tickets (update_ticket_state t0 now) }).tickets
        tid = some t' := ht'
    cases hfr : findTicket st.tickets rid with
    | none =>
      rw [hfr] at ht''
      have ht3 : findTicket st.tickets tid = some t' := ht''
      exact absurd (congrArg Ticket.status (Option.some.inj (ht.symm.trans ht3))) hne
    | some t0 =>
      rw [hfr] at ht''
      have ht3 : findTicket
          (save_ticket st.tickets (update_ticket_state t0 now)) tid = some t' := ht''
      obtain ⟨s, hs⟩ := update_ticket_state_shape t0 now
      rw [hs, findTicket_save_ticket hfr s tid] at ht3
      by_cases hid : tid = rid
      · rw [if_pos hid] at ht3
        have htt0 : t = t0 := by
          rw [hid] at ht
          exact Option.some.inj (ht.symm.trans hfr)
        have ht'eq : t' = { t0 with status := s } := (Option.some.inj ht3).symm
        rcases update_ticket_state_status t0 now with hsame | ⟨hact, hexp⟩
        · exfalso
          apply hne
          have hst : s = t0.status := (congrArg Ticket.status hs).symm.trans hsame
          rw [htt0, ht'eq]
          exact hst.symm
        · left
          have hst : s = TicketStatus.expired := (congrArg Ticket.status hs).symm.trans hexp
          refine ⟨htt0 ▸ hact, ?_⟩
          rw [ht'eq]
          exact hst
      · rw [if_neg hid] at ht3
        exact absurd (congrArg Ticket.status (Option.some.inj (ht.symm.trans ht3))) hne

def c2Final : AppState := (process_payment cexS3 1 10 3).1

/-- Ticket 1 as stored in `cexS3` (expired). -/
def cexExpiredTicket : Ticket :=
  { ticketId := 1
    issueTime := 0
    expiryTime := some 1
    status := TicketStatus.expired
    platformNumber := 1 }

/-- Ticket 1 as stored in `c2Final` (re-activated by the duplicate
settlement). -/
def cexActiveTicket : Ticket :=
  { ticketId := 1
    issueTime := 0
    expiryTime := some 1
    status := TicketStatus.active
    platformNumber := 1 }

/-- Counterexample to C2 as stated: at the reachable state `cexS3` ticket 1
is Expired; one further exposed operation (a duplicate settlement of its
booking) moves it back to Active. -/
theorem c2_closure_counterexample : ¬ TicketClosureClaim := by
  intro hclaim
  have h3 : Reachable cexS3 :=
    Reachable.step
      (Reachable.step
        (Reachable.step (Reachable.init _)
          (Step.create cexS0 1 1 1 0 (by decide)))
        (Step.pay cexS1 1 10 0))
      (Step.refresh cexS2 1 2)
  have hstep : Step cexS3 c2Final := Step.pay cexS3 1 10 3
  have hfind3 : findTicket cexS3.tickets 1 = some cexExpiredTicket := by decide
  have hfindF : findTicket c2Final.tickets 1 = some cexActiveTicket := by decide
  exact (hclaim cexS3 c2Final h3 hstep 1 _ _ hfind3 hfindF (Or.inl rfl)).2 rfl

/-- Witness for the amended C2 at the duplicate-settlement step: the
Expired → Active overwrite falls under the settlement disjunct. -/
theorem c2_status_edges_witness :
    (cexExpiredTicket.status = TicketStatus.active ∧
      cexActiveTicket.status = TicketStatus.expired) ∨
    cexActiveTicket.status = TicketStatus.active :=
  c2_status_edges (Step.pay cexS3 1 10 3) 1 cexExpiredTicket cexActiveTicket
    (by decide) (by decide) (by decide)

end TicketBooking
